import Mathlib

/-!
Shallow embedding of the gossip-glomers node implementations
(src/lib.rs, src/bin/counter.rs, src/bin/broadcast.rs, src/bin/kafka.rs)
and proofs about them. Rust HashMap/HashSet state is embedded as
association lists / lists with set-membership semantics; u64 counters are
embedded as Nat, i64 values as Int; fallible paths (anyhow errors,
panics) are embedded as Except/Option outcomes.
-/

namespace GossipGlomers

/-- Message body, from src/lib.rs `Body`: optional msg id, optional
in_reply_to, and the protocol payload. -/
structure Body (P : Type) where
  id : Option Nat
  in_reply_to : Option Nat
  payload : P
deriving DecidableEq, Repr

/-- Message envelope, from src/lib.rs `Message`. -/
structure Message (P : Type) where
  src : String
  dest : String
  body : Body P
deriving DecidableEq, Repr

/-- From src/lib.rs `Message::into_reply` (lines 31-41): swap src/dest,
take a fresh id from the counter when one is supplied (`fetch_add`
returns the old counter value), set in_reply_to to the request's id, and
keep the payload. The counter argument is the atomic counter's value at
the call; the caller's counter is incremented separately. -/
def Message.into_reply {P : Type} (m : Message P) (idCounter : Option Nat) : Message P :=
  { src := m.dest
    dest := m.src
    body :=
      { id := idCounter
        in_reply_to := m.body.id
        payload := m.body.payload } }

/-- Init handshake data, from src/lib.rs `Init`. -/
structure Init where
  node_id : String
  node_ids : List String
deriving DecidableEq, Repr

/-! ### Counter node (src/bin/counter.rs) -/

/-- Counter protocol payload, from src/bin/counter.rs `Payload`. -/
inductive CounterPayload where
  | add (delta : Nat)
  | addOk
  | read
  | readOk (value : Nat)
  | sync (value : Nat)
deriving DecidableEq, Repr

/-- Events delivered to the counter node: inbound message, injected
timer tick (`InjectedPayload::Sync`), or EOF. From src/lib.rs `Event`. -/
inductive CounterEvent where
  | message (m : Message CounterPayload)
  | injected
  | eof
deriving DecidableEq, Repr

/-- Counter node state, from src/bin/counter.rs `CounterNode`; the
`HashMap<String, u64>` counter is an association list. -/
structure CounterNode where
  id : Nat
  node : String
  nodes : List String
  counter : List (String × Nat)
deriving DecidableEq, Repr

/-- Models the Rust pattern `if let Some(current) = map.get_mut(&k)
\x7b *current = f(*current) \x7d`: apply f at key k when present, leave the
map unchanged otherwise. -/
def updateShard (m : List (String × Nat)) (k : String) (f : Nat → Nat) :
    List (String × Nat) :=
  m.map (fun p => if p.1 = k then (p.1, f p.2) else p)

/-- From src/bin/counter.rs `CounterNode::from_init` (lines 37-66): id
starts at 1 and every node id from the handshake gets a zero shard.
(The spawned timer task is modelled by `CounterEvent.injected`.) -/
def CounterNode.from_init (init : Init) : CounterNode :=
  { id := 1
    node := init.node_id
    nodes := init.node_ids
    counter := init.node_ids.map (fun i => (i, 0)) }

/-- From src/bin/counter.rs `CounterNode::handle` (lines 68-127), as a
state transition returning the new node state and the list of messages
written to stdout. `reply.src` is the original message's dest and
`reply.dest` is the original src, so Add increments the shard keyed by
the message's destination (this node) and Sync max-merges the shard
keyed by the message's source (the sender). -/
def CounterNode.handle (n : CounterNode) (e : CounterEvent) :
    CounterNode × List (Message CounterPayload) :=
  match e with
  | .eof => (n, [])
  | .message m =>
    let reply := m.into_reply (some n.id)
    let n1 : CounterNode := { n with id := n.id + 1 }
    match reply.body.payload with
    | .add delta =>
        ({ n1 with counter := updateShard n1.counter reply.src (fun c => c + delta) },
         [{ reply with body := { reply.body with payload := .addOk } }])
    | .addOk => (n1, [])
    | .read =>
        let value := (n1.counter.map Prod.snd).sum
        (n1, [{ reply with body := { reply.body with payload := .readOk value } }])
    | .readOk _ => (n1, [])
    | .sync value =>
        ({ n1 with counter := updateShard n1.counter reply.dest (fun c => max c value) },
         [])
  | .injected =>
    (n,
     (n.nodes.filter (fun x => x ≠ n.node)).map (fun peer =>
       { src := n.node
         dest := peer
         body :=
           { id := none
             in_reply_to := none
             payload := .sync ((n.counter.lookup n.node).getD 0) } }))

/-! ### Broadcast node (src/bin/broadcast.rs) -/

/-- Broadcast protocol payload, from src/bin/broadcast.rs `Payload`;
the `HashSet<usize>` sets are lists with membership semantics. -/
inductive BroadcastPayload where
  | broadcast (msg : Nat)
  | broadcastOk
  | read
  | readOk (msgs : List Nat)
  | topology (topo : List (String × List String))
  | topologyOk
  | gossip (seen : List Nat)
deriving DecidableEq, Repr

/-- Broadcast node state, from src/bin/broadcast.rs `BroadcastNode`. -/
structure BroadcastNode where
  node : String
  msgs : List Nat
  neighbors : List String
  known : List (String × List Nat)
  id : Nat
deriving DecidableEq, Repr

/-- Models `HashSet::difference`: the elements of a not contained in b. -/
def setDiff (a b : List Nat) : List Nat :=
  a.filter (fun x => !b.contains x)

/-- From src/bin/broadcast.rs `BroadcastNode::handle`, the
`Event::Injected` arm (lines 124-139): for every configured neighbor,
send a Gossip message carrying `msgs.difference(known[neighbor])`; the
node state (in particular `known`) is not modified. The send is
unconditional: the code has no emptiness check on the difference. -/
def BroadcastNode.gossipTick (n : BroadcastNode) :
    BroadcastNode × List (Message BroadcastPayload) :=
  (n,
   n.neighbors.map (fun neighbor =>
     { src := n.node
       dest := neighbor
       body :=
         { id := none
           in_reply_to := none
           payload := .gossip (setDiff n.msgs ((n.known.lookup neighbor).getD [])) } }))

/-! ### Kafka / replicated-log node (src/bin/kafka.rs) -/

/-- Kafka protocol payload, from src/bin/kafka.rs `Payload`. -/
inductive KafkaPayload where
  | send (key : String) (msg : Int)
  | sendOk (offset : Int)
  | poll (offsets : List (String × Int))
  | pollOk (msgs : List (String × List (List Int)))
  | commitOffsets (offsets : List (String × Int))
  | commitOffsetsOk
  | listCommittedOffsets (keys : List String)
  | listCommittedOffsetsOk (offsets : List (String × Int))
  | read (key : String)
  | readOk (value : Int)
  | error (code : Nat) (text : String)
  | write (key : String) (value : Int)
  | writeOk
  | cas (key : String) (fromV : Int) (toV : Int) (put : Bool)
  | casOk
deriving DecidableEq, Repr

/-- One cas request as sent to the backing store: key, expected prior
value, new value, and the create_if_not_exists flag (`put`). -/
structure CasRequest where
  key : String
  fromV : Int
  toV : Int
  put : Bool
deriving DecidableEq, Repr

/-- From src/bin/kafka.rs lines 190-196: the loop body computes
`(prev, now) = (curr - 1, curr)` and calls `cas(latest_key, prev, now, true)`;
the create_if_not_exists flag is the literal `true` on every attempt. -/
def casRequestAt (latestKey : String) (curr : Int) : CasRequest :=
  { key := latestKey, fromV := curr - 1, toV := curr, put := true }

/-- Modelled from the spec: section 4.5 step 2 says the attempt is
cas(latest:(key), current-1, current, create_if_missing = current==0),
so here the flag is set exactly when the candidate is 0. -/
def specCasRequestAt (latestKey : String) (curr : Int) : CasRequest :=
  { key := latestKey, fromV := curr - 1, toV := curr, put := curr == 0 }

/-- Store update for the backing key-value service: bind k to v. The
store is read only through `List.lookup`, which returns the newest
binding, so prepending faithfully models a keyed overwrite-or-insert. -/
def kvSet (st : List (String × Int)) (k : String) (v : Int) :
    List (String × Int) :=
  (k, v) :: st

/-- Modelled from the spec: the external linearizable store's cas
(sections 1, 6 and the glossary) - succeed and install `toV` exactly
when the stored value equals `fromV`, or when the key is absent and
create_if_not_exists is set; fail without effect otherwise. `none` is
the precondition-failed / key-missing error outcome, which
`KafkaNode::cas` surfaces as an Err to the retry loop. -/
def casExec (st : List (String × Int)) (r : CasRequest) :
    Option (List (String × Int)) :=
  match st.lookup r.key with
  | some v => if v = r.fromV then some (kvSet st r.key r.toV) else none
  | none => if r.put then some (kvSet st r.key r.toV) else none

/-- Environment of the kafka node: the backing store contents, plus
which write rpcs fail on the wire (the environment's choice, modelling
lost or error-answered write requests). -/
structure KafkaEnv where
  store : List (String × Int)
  writeRpcFails : String → Bool

/-- From src/bin/kafka.rs `KafkaNode::write` (lines 109-116): the write
rpc is issued, its result is bound to `_result` and discarded, and the
function returns Ok(()) unconditionally - a failed write rpc leaves the
store unchanged yet still yields a success return value. -/
def KafkaEnv.write (env : KafkaEnv) (k : String) (v : Int) :
    KafkaEnv × Except String Unit :=
  (if env.writeRpcFails k then env
   else { env with store := kvSet env.store k v },
   Except.ok ())

/-- From src/bin/kafka.rs lines 190-201: the offset-claim loop. Starting
from candidate `start`, attempt `casRequestAt latestKey start` against
the store; on success the claimed offset is the current candidate, on
failure increment the candidate and retry (no re-read). Runs against a
fixed store snapshot (no interference), with fuel bounding the unbounded
`loop`; returns the claimed offset, the updated store, and the trace of
cas requests issued. -/
def sendLoop (st : List (String × Int)) (latestKey : String) :
    Nat → Int → Option (Int × List (String × Int) × List CasRequest)
  | 0, _ => none
  | fuel + 1, start =>
    match casExec st (casRequestAt latestKey start) with
    | some st1 => some (start, st1, [casRequestAt latestKey start])
    | none =>
      match sendLoop st latestKey fuel (start + 1) with
      | some (off, st1, rs) => some (off, st1, casRequestAt latestKey start :: rs)
      | none => none

/-- Result of a handled Send request: the claimed offset, the final
environment, the reply payload sent to the client, and the cas trace. -/
structure SendOutcome where
  offset : Int
  env : KafkaEnv
  reply : KafkaPayload
  trace : List CasRequest

/-- From src/bin/kafka.rs `KafkaNode::handle`, the `Payload::Send` arm
(lines 178-219): read latest:(key) treating any read error as 0, claim
an offset through the cas loop, write the value at (key):(offset) and
the claimed offset at latest:(key) - both write results discarded with
`let _ =` - and reply SendOk with the claimed offset. -/
def handleSend (env : KafkaEnv) (key : String) (msg : Int) (fuel : Nat) :
    Option SendOutcome :=
  let latestKey := "latest:" ++ key
  let start := (env.store.lookup latestKey).getD 0
  match sendLoop env.store latestKey fuel start with
  | none => none
  | some (off, st1, tr) =>
    let env1 : KafkaEnv := { env with store := st1 }
    let msgKey := key ++ ":" ++ toString off
    let env2 := (env1.write msgKey msg).1
    let env3 := (env2.write latestKey off).1
    some { offset := off, env := env3, reply := .sendOk off, trace := tr }

/-- From src/bin/kafka.rs lines 209-212: the advance of latest:(key)
after a successful claim is `self.write(latest_key, start)` - an
unconditional store write, shown here on the path where the write rpc
reaches the store. -/
def advanceLatest (st : List (String × Int)) (latestKey : String) (off : Int) :
    List (String × Int) :=
  kvSet st latestKey off

/-- Modelled from the spec: sections 4.5 step 5 and 9 call for a
monotonic max-CAS advance of latest:(key) - an update that never
replaces the stored value with a smaller one. -/
def maxCasAdvance (st : List (String × Int)) (latestKey : String) (off : Int) :
    List (String × Int) :=
  match st.lookup latestKey with
  | some v => if v < off then kvSet st latestKey off else st
  | none => kvSet st latestKey off

/-- From src/bin/kafka.rs lines 220-228: the Poll arm ignores the
requested offsets and the store entirely and replies PollOk with an
empty msgs map. -/
def pollReply (_env : KafkaEnv) (_offsets : List (String × Int)) : KafkaPayload :=
  .pollOk []

/-- A pending-rpc waiter: `closed` models a oneshot receiver that is
already gone, so `tx.send` fails. -/
structure Waiter where
  closed : Bool
deriving DecidableEq, Repr

/-- From src/bin/kafka.rs lines 166-174: on a message whose in_reply_to
is set, the entry is removed from the pending-rpc table;
`remove(&id).unwrap()` panics when no entry exists (embedded as an error
outcome), and if the waiter's channel is closed the handler bails with
"rpc response channel closed". On success the remaining table is
returned. -/
def handleRpcReply (table : List (Nat × Waiter)) (inReplyTo : Nat) :
    Except String (List (Nat × Waiter)) :=
  match table.lookup inReplyTo with
  | none => .error "no pending rpc entry for in_reply_to"
  | some w =>
    if w.closed then .error "rpc response channel closed"
    else .ok (table.filter (fun p => p.1 != inReplyTo))

/-! ### Helper lemmas -/

/-- Association-list lookup at the head key. -/
lemma lookup_cons_self {β : Type} (a : String) (b : β) (t : List (String × β)) :
    ((a, b) :: t).lookup a = some b := by
  simp [List.lookup]

/-- Association-list lookup skips a head entry with a different key. -/
lemma lookup_cons_of_ne {β : Type} {a j : String} (h : ¬ j = a) (b : β)
    (t : List (String × β)) : ((a, b) :: t).lookup j = t.lookup j := by
  have hb : (j == a) = false := by
    simpa using h
  simp [List.lookup, hb]

/-- Looking a key up after `updateShard`: at the updated key the stored
value is mapped through f, every other key is untouched. -/
lemma updateShard_lookup (m : List (String × Nat)) (k j : String) (f : Nat → Nat) :
    (updateShard m k f).lookup j = if j = k then (m.lookup j).map f else m.lookup j := by
  induction m with
  | nil => by_cases h : j = k <;> simp [updateShard, h]
  | cons p t ih =>
    obtain ⟨a, b⟩ := p
    by_cases hak : a = k
    · subst hak
      have hhead : updateShard ((a, b) :: t) a f = (a, f b) :: updateShard t a f := by
        simp [updateShard]
      rw [hhead]
      by_cases hja : j = a
      · subst hja
        simp [lookup_cons_self]
      · simp [lookup_cons_of_ne hja, hja, ih]
    · have hhead : updateShard ((a, b) :: t) k f = (a, b) :: updateShard t k f := by
        simp [updateShard, hak]
      rw [hhead]
      by_cases hja : j = a
      · subst hja
        simp [lookup_cons_self, hak]
      · simp [lookup_cons_of_ne hja, ih]

/-- `updateShard` with an inflationary function never decreases any
looked-up shard value. -/
lemma updateShard_le (m : List (String × Nat)) (k j : String) (f : Nat → Nat)
    (hf : ∀ v, v ≤ f v) :
    ((m.lookup j).getD 0) ≤ (((updateShard m k f).lookup j).getD 0) := by
  rw [updateShard_lookup]
  by_cases h : j = k
  · simp only [if_pos h]
    cases m.lookup j <;> simp [hf]
  · simp [if_neg h]

/-- `updateShard` at a key no entry carries is the identity. -/
lemma updateShard_of_not_mem (m : List (String × Nat)) (k : String) (f : Nat → Nat)
    (h : ∀ p ∈ m, p.1 ≠ k) : updateShard m k f = m := by
  induction m with
  | nil => rfl
  | cons p t ih =>
    have h1 : p.1 ≠ k := h p (List.mem_cons_self p t)
    have h2 : updateShard t k f = t := ih (fun q hq => h q (List.mem_cons_of_mem p hq))
    show (if p.1 = k then (p.1, f p.2) else p) :: updateShard t k f = p :: t
    rw [if_neg h1, h2]

/-- Two successive `updateShard` at the same key compose the updates. -/
lemma updateShard_comp (m : List (String × Nat)) (k : String) (f g : Nat → Nat) :
    updateShard (updateShard m k f) k g = updateShard m k (fun v => g (f v)) := by
  induction m with
  | nil => rfl
  | cons p t ih =>
    obtain ⟨a, b⟩ := p
    by_cases hak : a = k <;> simp [updateShard, hak, ih] <;>
      simpa [updateShard] using ih

/-- Characterization of the offset-claim loop against a fixed store
snapshot: when it terminates it has made k failing attempts at
consecutive candidates starting from `start`, each request produced by
`casRequestAt`, and the claimed offset is the first succeeding
candidate `start + k`. -/
lemma sendLoop_characterization (st : List (String × Int)) (lk : String) :
    ∀ (fuel : Nat) (start off : Int) (st1 : List (String × Int)) (tr : List CasRequest),
      sendLoop st lk fuel start = some (off, st1, tr) →
      ∃ k : Nat, off = start + (k : Int)
        ∧ tr = (List.range (k + 1)).map (fun i : Nat => casRequestAt lk (start + (i : Int)))
        ∧ (∀ i : Nat, i < k → casExec st (casRequestAt lk (start + (i : Int))) = none)
        ∧ casExec st (casRequestAt lk off) = some st1 := by
  intro fuel
  induction fuel with
  | zero =>
    intro start off st1 tr h
    exact absurd h (by simp [sendLoop])
  | succ fuel ih =>
    intro start off st1 tr h
    simp only [sendLoop] at h
    cases hc : casExec st (casRequestAt lk start) with
    | some st2 =>
      simp only [hc, Option.some.injEq, Prod.mk.injEq] at h
      obtain ⟨rfl, rfl, rfl⟩ := h
      refine ⟨0, by simp, by simp [List.range_succ], ?_, hc⟩
      intro i hi
      exact absurd hi (Nat.not_lt_zero i)
    | none =>
      simp only [hc] at h
      cases hr : sendLoop st lk fuel (start + 1) with
      | none =>
        simp only [hr] at h
        exact Option.noConfusion h
      | some trip =>
        obtain ⟨off2, st2, rs⟩ := trip
        simp only [hr, Option.some.injEq, Prod.mk.injEq] at h
        obtain ⟨rfl, rfl, rfl⟩ := h
        obtain ⟨k, hk, htr, hfail, hsucc⟩ := ih (start + 1) off2 st2 rs hr
        have harg : ∀ j : Nat, start + 1 + (j : Int) = start + ((j + 1 : Nat) : Int) := by
          intro j
          push_cast
          ring
        refine ⟨k + 1, by rw [hk]; push_cast; ring, ?_, ?_, hsucc⟩
        · conv_rhs => rw [List.range_succ_eq_map]
          rw [List.map_cons, List.map_map]
          refine List.cons_eq_cons.mpr ⟨?_, ?_⟩
          · first
            | rfl
            | simp
          · rw [htr]
            apply List.map_congr_left
            intro i _
            simp only [Function.comp]
            rw [harg i]
        · intro i hi
          cases i with
          | zero => simpa using hc
          | succ j =>
            have hj : j < k := Nat.lt_of_succ_lt_succ hi
            have hjf := hfail j hj
            rw [harg j] at hjf
            exact hjf

/-- Unfolding of a terminating Send handler run: the reply is SendOk
with the claimed offset, and the offset and trace come from the claim
loop started at the read value of latest:(key) with absence read as 0. -/
lemma handleSend_some (env : KafkaEnv) (key : String) (msg : Int) (fuel : Nat)
    (r : SendOutcome) (h : handleSend env key msg fuel = some r) :
    r.reply = KafkaPayload.sendOk r.offset
      ∧ ∃ stMid, sendLoop env.store ("latest:" ++ key) fuel
          ((env.store.lookup ("latest:" ++ key)).getD 0)
          = some (r.offset, stMid, r.trace) := by
  revert h
  simp only [handleSend]
  cases hsl : sendLoop env.store ("latest:" ++ key) fuel
      ((env.store.lookup ("latest:" ++ key)).getD 0) with
  | none => intro h; exact absurd h (by simp)
  | some trip =>
    obtain ⟨off, stMid, tr⟩ := trip
    intro h
    simp only [Option.some.injEq] at h
    subst h
    exact ⟨rfl, ⟨stMid, rfl⟩⟩

/-! ### Claim theorems -/

/-- C9: for every message m and counter value, into_reply produces a
reply whose src is m.dest, whose dest is m.src, whose in_reply_to is
m.body.id, and whose payload is exactly m's payload. -/
theorem into_reply_envelope_symmetry {P : Type} (m : Message P) (c : Option Nat) :
    (m.into_reply c).src = m.dest
      ∧ (m.into_reply c).dest = m.src
      ∧ (m.into_reply c).body.in_reply_to = m.body.id
      ∧ (m.into_reply c).body.payload = m.body.payload :=
  ⟨rfl, rfl, rfl, rfl⟩

/-- C7: when an incoming in_reply_to matches no entry of the pending-rpc
table, the log node's reply-correlation path yields an error outcome
(the source panics on `remove(&id).unwrap()`), not a silent success. -/
theorem kafka_spurious_reply_error (table : List (Nat × Waiter)) (i : Nat)
    (h : table.lookup i = none) :
    handleRpcReply table i = Except.error "no pending rpc entry for in_reply_to" := by
  simp [handleRpcReply, h]

/-- Witness for C7 at the concrete table [(3, open waiter)] and
in_reply_to 7. -/
theorem kafka_spurious_reply_error_witness :
    List.lookup 7 [(3, Waiter.mk false)] = none
      ∧ handleRpcReply [(3, Waiter.mk false)] 7
          = Except.error "no pending rpc entry for in_reply_to" :=
  ⟨by decide, kafka_spurious_reply_error [(3, Waiter.mk false)] 7 (by decide)⟩

/-- C10: a Sync message whose sender is not among the init node ids
leaves the counter map unchanged and produces no output message (the
handler returns successfully; the transition is total). -/
theorem counter_sync_unknown_sender_ignored (init : Init) (src dest : String)
    (bid : Option Nat) (v : Nat) (h : src ∉ init.node_ids) :
    (((CounterNode.from_init init).handle
        (.message ⟨src, dest, ⟨bid, none, .sync v⟩⟩)).1).counter
        = (CounterNode.from_init init).counter
      ∧ ((CounterNode.from_init init).handle
          (.message ⟨src, dest, ⟨bid, none, .sync v⟩⟩)).2 = [] := by
  constructor
  · show updateShard ((CounterNode.from_init init).counter) src (fun c => max c v)
        = (CounterNode.from_init init).counter
    apply updateShard_of_not_mem
    intro p hp
    simp only [CounterNode.from_init, List.mem_map] at hp
    obtain ⟨i, hi, rfl⟩ := hp
    intro hc
    exact h (hc ▸ hi)
  · rfl

/-- Witness for C10: node n1 with peers [n1, n2] receives a Sync from
the unknown node n9. -/
theorem counter_sync_unknown_sender_ignored_witness :
    ("n9" ∉ ["n1", "n2"])
      ∧ ((((CounterNode.from_init ⟨"n1", ["n1", "n2"]⟩).handle
            (.message ⟨"n9", "n1", ⟨none, none, .sync 7⟩⟩)).1).counter
            = (CounterNode.from_init ⟨"n1", ["n1", "n2"]⟩).counter
          ∧ ((CounterNode.from_init ⟨"n1", ["n1", "n2"]⟩).handle
              (.message ⟨"n9", "n1", ⟨none, none, .sync 7⟩⟩)).2 = []) :=
  ⟨by decide,
   counter_sync_unknown_sender_ignored ⟨"n1", ["n1", "n2"]⟩ "n9" "n1" none 7 (by decide)⟩

/-- C5: counter shard values (naturals, hence non-negative) never
decrease under any handled event; handling Sync v from sender src
max-merges src's shard; and the max-merge is idempotent and commutative,
so duplicated or reordered sync deliveries from the same sender yield
the same shard state. -/
theorem counter_shard_monotone_max_merge :
    (∀ (n : CounterNode) (e : CounterEvent) (k : String),
        ((n.counter.lookup k).getD 0) ≤ ((((n.handle e).1).counter.lookup k).getD 0))
    ∧ (∀ (n : CounterNode) (src dest : String) (bid : Option Nat) (v : Nat),
        ((n.handle (.message ⟨src, dest, ⟨bid, none, .sync v⟩⟩)).1).counter
          = updateShard n.counter src (fun c => max c v))
    ∧ (∀ (n : CounterNode) (src d1 d2 : String) (b1 b2 : Option Nat) (v : Nat),
        ((((n.handle (.message ⟨src, d1, ⟨b1, none, .sync v⟩⟩)).1).handle
            (.message ⟨src, d2, ⟨b2, none, .sync v⟩⟩)).1).counter
          = ((n.handle (.message ⟨src, d1, ⟨b1, none, .sync v⟩⟩)).1).counter)
    ∧ (∀ (n : CounterNode) (src d1 d2 : String) (b1 b2 : Option Nat) (v1 v2 : Nat),
        ((((n.handle (.message ⟨src, d1, ⟨b1, none, .sync v1⟩⟩)).1).handle
            (.message ⟨src, d2, ⟨b2, none, .sync v2⟩⟩)).1).counter
          = ((((n.handle (.message ⟨src, d2, ⟨b2, none, .sync v2⟩⟩)).1).handle
              (.message ⟨src, d1, ⟨b1, none, .sync v1⟩⟩)).1).counter) := by
  refine ⟨?_, ?_, ?_, ?_⟩
  · intro n e k
    cases e with
    | eof => exact le_refl _
    | injected => exact le_refl _
    | message m =>
      obtain ⟨src, dest, bid, irt, p⟩ := m
      cases p with
      | add delta =>
        exact updateShard_le n.counter dest k (fun c => c + delta)
          (fun v => Nat.le_add_right v delta)
      | addOk => exact le_refl _
      | read => exact le_refl _
      | readOk v => exact le_refl _
      | sync v =>
        exact updateShard_le n.counter src k (fun c => max c v)
          (fun c => le_max_left c v)
  · intro n src dest bid v
    rfl
  · intro n src d1 d2 b1 b2 v
    show updateShard (updateShard n.counter src (fun c => max c v)) src (fun c => max c v)
        = updateShard n.counter src (fun c => max c v)
    rw [updateShard_comp]
    congr 1
    funext c
    rw [max_assoc, max_self]
  · intro n src d1 d2 b1 b2 v1 v2
    show updateShard (updateShard n.counter src (fun c => max c v1)) src (fun c => max c v2)
        = updateShard (updateShard n.counter src (fun c => max c v2)) src (fun c => max c v1)
    rw [updateShard_comp, updateShard_comp]
    congr 1
    funext c
    exact Max.right_comm c v1 v2

/-- C6: a Read reply carries the sum of all shard values and leaves the
counter unchanged; a timer tick (the sync broadcast) does not change the
node state at all; and in the concrete scenario - node n1 with peers
[n1, n2] handling add 5 then add 3 - read returns 8, and still returns
8 after the timer tick has sent the sync messages. -/
theorem counter_read_sum_scenario :
    (∀ (n : CounterNode) (src dest : String) (bid : Option Nat),
        n.handle (.message ⟨src, dest, ⟨bid, none, .read⟩⟩)
          = ({ n with id := n.id + 1 },
             [⟨dest, src, ⟨some n.id, bid, .readOk ((n.counter.map Prod.snd).sum)⟩⟩]))
    ∧ (∀ n : CounterNode, (n.handle .injected).1 = n)
    ∧ ((((CounterNode.from_init ⟨"n1", ["n1", "n2"]⟩).handle
          (.message ⟨"c1", "n1", ⟨some 1, none, .add 5⟩⟩)).1.handle
          (.message ⟨"c1", "n1", ⟨some 2, none, .add 3⟩⟩)).1.handle
          (.message ⟨"c1", "n1", ⟨some 3, none, .read⟩⟩)).2
        = [⟨"n1", "c1", ⟨some 3, some 3, .readOk 8⟩⟩]
    ∧ ((((((CounterNode.from_init ⟨"n1", ["n1", "n2"]⟩).handle
          (.message ⟨"c1", "n1", ⟨some 1, none, .add 5⟩⟩)).1.handle
          (.message ⟨"c1", "n1", ⟨some 2, none, .add 3⟩⟩)).1.handle .injected).1.handle
          (.message ⟨"c1", "n1", ⟨some 4, none, .read⟩⟩)).2
        = [⟨"n1", "c1", ⟨some 3, some 4, .readOk 8⟩⟩]) := by
  refine ⟨?_, fun n => rfl, ?_, ?_⟩
  · intro n src dest bid
    rfl
  · rfl
  · rfl

/-- C4 counterexample: a broadcast node whose diff for its only neighbor
is empty still sends a Gossip message (with an empty seen set) on the
timer tick, refuting "sends the difference only if it is non-empty". -/
theorem broadcast_gossip_empty_diff_counterexample :
    (BroadcastNode.gossipTick ⟨"n1", [], ["n2"], [("n2", [])], 1⟩).2
        = [⟨"n1", "n2", ⟨none, none, .gossip (setDiff [] [])⟩⟩]
      ∧ setDiff [] [] = ([] : List Nat) :=
  ⟨rfl, rfl⟩

/-- C4 amended: on the timer tick the broadcast node sends, to each
configured neighbor, a Gossip message carrying the set difference of the
local message set and the peer-knowledge entry for that neighbor -
unconditionally, whether or not the difference is empty - and the node
state (in particular peer-knowledge) is unchanged. setDiff is the
membership-level set difference. -/
theorem broadcast_gossip_tick_amended :
    (∀ (x : Nat) (a b : List Nat), x ∈ setDiff a b ↔ x ∈ a ∧ x ∉ b)
    ∧ (∀ n : BroadcastNode, (n.gossipTick).1 = n)
    ∧ (∀ n : BroadcastNode, (n.gossipTick).2
        = n.neighbors.map (fun neighbor =>
            ⟨n.node, neighbor,
              ⟨none, none,
                .gossip (setDiff n.msgs ((n.known.lookup neighbor).getD []))⟩⟩)) := by
  refine ⟨?_, fun n => rfl, fun n => rfl⟩
  intro x a b
  simp [setDiff, List.mem_filter]

/-- C1 counterexample: in a run of the Send handler against a store
holding latest:k1 = 4, the first cas request issued has
create_if_not_exists = true although the candidate is 4, while the
spec's loop would have it unset for any non-zero candidate; the issued
request differs from the spec's request. -/
theorem kafka_cas_put_flag_counterexample :
    ((handleSend ⟨[("latest:k1", 4)], fun _ => false⟩ "k1" 42 5).map
        (fun r => r.trace))
      = some [casRequestAt "latest:k1" 4, casRequestAt "latest:k1" 5]
    ∧ (casRequestAt "latest:k1" 4).put = true
    ∧ (specCasRequestAt "latest:k1" 4).put = false
    ∧ casRequestAt "latest:k1" 4 ≠ specCasRequestAt "latest:k1" 4 := by
  refine ⟨rfl, rfl, rfl, by decide⟩

/-- C1 amended: offset allocation follows the claimed loop except that
create_if_not_exists is always true. The initial candidate is the value
read from latest:(key) (0 when absent); each attempt is
cas(latest:(key), current-1, current, true); each failure increments the
candidate by one against the same store snapshot (no re-read); the
claimed offset is the first succeeding candidate, and it is the offset
in the SendOk reply. -/
theorem kafka_send_loop_amended :
    (∀ (st : List (String × Int)) (lk : String) (fuel : Nat) (start off : Int)
        (st1 : List (String × Int)) (tr : List CasRequest),
        sendLoop st lk fuel start = some (off, st1, tr) →
        ∃ k : Nat, off = start + (k : Int)
          ∧ tr = (List.range (k + 1)).map
              (fun i : Nat => casRequestAt lk (start + (i : Int)))
          ∧ (∀ i : Nat, i < k → casExec st (casRequestAt lk (start + (i : Int))) = none)
          ∧ casExec st (casRequestAt lk off) = some st1)
    ∧ (∀ (lk : String) (c : Int), casRequestAt lk c = ⟨lk, c - 1, c, true⟩)
    ∧ (∀ (env : KafkaEnv) (key : String) (msg : Int) (fuel : Nat) (r : SendOutcome),
        handleSend env key msg fuel = some r →
        r.reply = KafkaPayload.sendOk r.offset
          ∧ ∃ stMid, sendLoop env.store ("latest:" ++ key) fuel
              ((env.store.lookup ("latest:" ++ key)).getD 0)
              = some (r.offset, stMid, r.trace)) := by
  refine ⟨?_, fun lk c => rfl, ?_⟩
  · intro st lk fuel start off st1 tr h
    exact sendLoop_characterization st lk fuel start off st1 tr h
  · intro env key msg fuel r h
    exact handleSend_some env key msg fuel r h

/-- Witness for C1 amended at store [latest:k1 = 4], fuel 2, start 4:
the loop fails once at candidate 4 and claims offset 5. -/
theorem kafka_send_loop_amended_witness :
    ∃ k : Nat, (5 : Int) = 4 + (k : Int)
      ∧ [casRequestAt "latest:k1" 4, casRequestAt "latest:k1" 5]
          = (List.range (k + 1)).map
              (fun i : Nat => casRequestAt "latest:k1" ((4 : Int) + (i : Int)))
      ∧ (∀ i : Nat, i < k →
          casExec [("latest:k1", 4)] (casRequestAt "latest:k1" ((4 : Int) + (i : Int)))
            = none)
      ∧ casExec [("latest:k1", 4)] (casRequestAt "latest:k1" 5)
          = some (kvSet [("latest:k1", 4)] "latest:k1" 5) :=
  kafka_send_loop_amended.1 [("latest:k1", 4)] "latest:k1" 2 4 5
    (kvSet [("latest:k1", 4)] "latest:k1" 5)
    [casRequestAt "latest:k1" 4, casRequestAt "latest:k1" 5] (by decide)

/-- C2 counterexample: the advance of latest:k1 after a claim replaces a
stored 10 with the smaller claimed offset 5, while the spec's max-CAS
advance keeps the 10 - so the code's advance is not an update that can
never replace the stored value with a smaller one. -/
theorem kafka_advance_regression_counterexample :
    (advanceLatest [("latest:k1", 10)] "latest:k1" 5).lookup "latest:k1" = some 5
      ∧ ((5 : Int) < 10)
      ∧ (maxCasAdvance [("latest:k1", 10)] "latest:k1" 5).lookup "latest:k1"
          = some 10 := by
  refine ⟨rfl, by decide, by decide⟩

/-- C2 amended: the advance of latest:(key) is a blind unconditional
write - afterwards the stored value is the claimed offset whatever value
was there before - whereas the spec-modelled max-CAS advance yields the
maximum of the old value and the offset, never something smaller. -/
theorem kafka_advance_blind_write :
    (∀ (st : List (String × Int)) (lk : String) (off : Int),
        (advanceLatest st lk off).lookup lk = some off)
    ∧ (∀ (st : List (String × Int)) (lk : String) (off v : Int),
        st.lookup lk = some v →
        (maxCasAdvance st lk off).lookup lk = some (max v off)) := by
  constructor
  · intro st lk off
    exact lookup_cons_self lk off st
  · intro st lk off v h
    unfold maxCasAdvance
    rw [h]
    show List.lookup lk (if v < off then kvSet st lk off else st) = some (max v off)
    by_cases hvo : v < off
    · rw [if_pos hvo]
      rw [max_eq_right (le_of_lt hvo)]
      exact lookup_cons_self lk off st
    · rw [if_neg hvo]
      rw [max_eq_left (not_lt.mp hvo)]
      exact h

/-- Witness for C2 amended: max-CAS advance on a store holding 10 with
claimed offset 5 keeps max 10 5. -/
theorem kafka_advance_blind_write_witness :
    List.lookup "latest:k1" [("latest:k1", 10)] = some 10
      ∧ (maxCasAdvance [("latest:k1", 10)] "latest:k1" 5).lookup "latest:k1"
          = some (max 10 5) :=
  ⟨by decide, kafka_advance_blind_write.2 [("latest:k1", 10)] "latest:k1" 5 10 (by decide)⟩

/-- C3: the Poll arm replies with an empty msgs map for every request
and every store; in particular, after send(k1, 42) stored 42 at offset 0
(the store provably holds k1:0 = 42), a poll for k1 from offset 0 still
gets the empty PollOk - the claimed non-empty batch never happens. -/
theorem kafka_poll_empty_at_failing_input :
    (∀ (env : KafkaEnv) (offsets : List (String × Int)),
        pollReply env offsets = KafkaPayload.pollOk [])
    ∧ (handleSend ⟨[], fun _ => false⟩ "k1" 42 1).map
          (fun r => (r.env.store.lookup "k1:0", pollReply r.env [("k1", 0)]))
        = some (some 42, KafkaPayload.pollOk []) :=
  ⟨fun _ _ => rfl, rfl⟩

/-- C8 counterexample: with every write rpc failing, the Send handler
still replies SendOk 0 although the value was never stored at k1:0 - the
handler replies send_ok as if the operation succeeded. -/
theorem kafka_send_ok_despite_write_failure :
    (handleSend ⟨[], fun _ => true⟩ "k1" 42 1).map
        (fun r => (r.reply, r.env.store.lookup "k1:0", r.env.store.lookup "latest:k1"))
      = some (KafkaPayload.sendOk 0, none, some 0) :=
  rfl

/-- C8 amended: backing-store write failures are swallowed, not
propagated: KafkaNode::write discards the rpc result and returns Ok
unconditionally, and whenever the Send handler terminates it replies
SendOk with the claimed offset, whether or not the value write or the
latest-advance write failed. -/
theorem kafka_write_errors_swallowed :
    (∀ (env : KafkaEnv) (k : String) (v : Int),
        (KafkaEnv.write env k v).2 = Except.ok ())
    ∧ (∀ (env : KafkaEnv) (key : String) (msg : Int) (fuel : Nat) (r : SendOutcome),
        handleSend env key msg fuel = some r →
        r.reply = KafkaPayload.sendOk r.offset) := by
  constructor
  · intro env k v
    rfl
  · intro env key msg fuel r h
    exact (handleSend_some env key msg fuel r h).1

/-- Witness for C8 amended: the concrete run with all write rpcs failing
terminates with reply SendOk 0 = SendOk offset. -/
theorem kafka_write_errors_swallowed_witness :
    SendOutcome.reply
        ⟨0, ⟨[("latest:k1", 0)], fun _ => true⟩, KafkaPayload.sendOk 0,
          [casRequestAt "latest:k1" 0]⟩
      = KafkaPayload.sendOk
          (SendOutcome.offset
            ⟨0, ⟨[("latest:k1", 0)], fun _ => true⟩, KafkaPayload.sendOk 0,
              [casRequestAt "latest:k1" 0]⟩) :=
  kafka_write_errors_swallowed.2 ⟨[], fun _ => true⟩ "k1" 42 1
    ⟨0, ⟨[("latest:k1", 0)], fun _ => true⟩, KafkaPayload.sendOk 0,
      [casRequestAt "latest:k1" 0]⟩ rfl

end GossipGlomers
